import Mathlib

set_option maxRecDepth 100000

/-!
Verification of the raudio_tagger ID3 parsing core.

Shallow embedding of `src/lib.rs` and `src/id3.rs`.  Byte buffers are
`List Nat` (each element a byte value), Rust `String`s are `List Nat` of
Unicode code points, and fallible Rust functions return `Outcome`:
`.panic` models a Rust panic (slice out of bounds, integer underflow,
`unwrap` on `Err`/`None`), `.error e` models `Err(e)`, `.ok v` models `Ok(v)`.

`lib.rs` is the crate root and does not declare `mod id3`, so the two files
hold two revisions of the `ID3v2` type: the header-only one in `lib.rs`
(namespace `Lib`, used by `extract_id3`) and the frame-iterating one in
`id3.rs` (namespace `Id3`).  `ID3v1`, `BitArray`, `unsafe_u8_to_str` and
`calculate_size` are byte-for-byte identical in the two files and are
modelled once.
-/

namespace RAudioTagger

/-- The `TagError` enum from `lib.rs`.  `id3.rs` additionally refers to a
`TagError::FromUtf8Error` variant (absent from the `lib.rs` enum), which we
include so the `id3.rs` code paths can be modelled. -/
inductive TagError where
  | TagsNotFoundError
  | ParseError
  | HeaderError
  | IoError
  | Utf8Error
  | FromUtf8Error
  deriving DecidableEq, Repr

/-- Result of running a Rust function that may panic: `.panic` models a
process abort (index/slice out of bounds, usize underflow, `unwrap`),
`.error` models returning `Err`, `.ok` models returning `Ok`. -/
inductive Outcome (α : Type) where
  | panic
  | error (e : TagError)
  | ok (v : α)
  deriving DecidableEq, Repr

/-- Rust slice `&l[a..b]` (callers establish `a ≤ b ≤ l.length`; on the
in-bounds inputs used below this agrees with Rust). -/
def listSlice (l : List Nat) (a b : Nat) : List Nat :=
  (l.drop a).take (b - a)

/-- ASCII digit test, as used by `str::parse::<u64>`. -/
def isDigit (d : Nat) : Bool :=
  decide (48 ≤ d ∧ d < 58)

/-- Model of `str::parse::<u64>` on a decoded string (list of code points):
an optional leading `+`, then a nonempty run of ASCII digits, value below
`2^64`. -/
def parse_u64 (s : List Nat) : Option Nat :=
  match s with
  | [] => none
  | c :: rest =>
    let digits := if c = 43 then rest else c :: rest
    if digits = [] then none
    else if digits.all isDigit then
      let v := digits.foldl (fun a d => a * 10 + (d - 48)) 0
      if v < 2 ^ 64 then some v else none
    else none

/-- Standard UTF-8 decoding of a byte list into code points, as performed by
`str::from_utf8` / `String::from_utf8`: rejects bare continuation bytes,
overlong forms, surrogate code points and values above `0x10FFFF`. -/
def utf8Decode : List Nat → Option (List Nat)
  | [] => some []
  | b :: rest =>
    if b < 0x80 then
      match utf8Decode rest with
      | some cs => some (b :: cs)
      | none => none
    else if b < 0xC0 then none
    else if b < 0xE0 then
      match rest with
      | c :: rest2 =>
        if 0x80 ≤ c ∧ c < 0xC0 then
          let cp := (b - 0xC0) * 0x40 + (c - 0x80)
          if cp < 0x80 then none
          else
            match utf8Decode rest2 with
            | some cs => some (cp :: cs)
            | none => none
        else none
      | [] => none
    else if b < 0xF0 then
      match rest with
      | c :: d :: rest3 =>
        if 0x80 ≤ c ∧ c < 0xC0 ∧ 0x80 ≤ d ∧ d < 0xC0 then
          let cp := (b - 0xE0) * 0x1000 + (c - 0x80) * 0x40 + (d - 0x80)
          if cp < 0x800 then none
          else if 0xD800 ≤ cp ∧ cp < 0xE000 then none
          else
            match utf8Decode rest3 with
            | some cs => some (cp :: cs)
            | none => none
        else none
      | _ => none
    else if b < 0xF8 then
      match rest with
      | c :: d :: e :: rest4 =>
        if 0x80 ≤ c ∧ c < 0xC0 ∧ 0x80 ≤ d ∧ d < 0xC0 ∧ 0x80 ≤ e ∧ e < 0xC0 then
          let cp := (b - 0xF0) * 0x40000 + (c - 0x80) * 0x1000 +
            (d - 0x80) * 0x40 + (e - 0x80)
          if cp < 0x10000 then none
          else if cp > 0x10FFFF then none
          else
            match utf8Decode rest4 with
            | some cs => some (cp :: cs)
            | none => none
        else none
      | _ => none
    else none

/-- `unsafe_u8_to_str` from both files: `str::from_utf8(..).unwrap()` —
yields the decoded string, or panics on invalid UTF-8. -/
def unsafe_u8_to_str (u8data : List Nat) : Outcome (List Nat) :=
  match utf8Decode u8data with
  | some s => .ok s
  | none => .panic

/-- The `BitArray` struct (identical in `lib.rs` and `id3.rs`). -/
structure BitArray where
  bits : List Bool
  big_endian : Bool
  deriving DecidableEq, Repr

/-- `BitArray::create_from_byte`: loop over the 8 bits of `byte`, peeling the
lowest bit each round; with `big_endian = true` bit `i` is stored at index
`7 - i` (most significant first), otherwise at index `i`. -/
def BitArray.create_from_byte (byte : Nat) (big_endian : Bool) : BitArray :=
  let step := fun (st : Nat × List Bool) (i : Nat) =>
    let last_bit := st.1 % 2 = 1
    let arr := if big_endian then st.2.set (7 - i) last_bit else st.2.set i last_bit
    (st.1 / 2, arr)
  { bits := ((List.range 8).foldl step (byte, List.replicate 8 false)).2,
    big_endian := big_endian }

/-- `ID3v2::calculate_size` (identical in both files): synchsafe decoding of
4 bytes, 7 bits per byte, big-endian. -/
def calculate_size (bytes : List Nat) : Nat :=
  (bytes.getD 3 0 &&& 0x7F)
    + ((bytes.getD 2 0 &&& 0x7F) <<< 7)
    + ((bytes.getD 1 0 &&& 0x7F) <<< 14)
    + ((bytes.getD 0 0 &&& 0x7F) <<< 21)

/-- `read_be_u32` from `id3.rs`: plain big-endian interpretation of the first
4 bytes. -/
def read_be_u32 (input : List Nat) : Nat :=
  (input.getD 0 0) <<< 24 + (input.getD 1 0) <<< 16 +
    (input.getD 2 0) <<< 8 + input.getD 3 0

/-- The `ID3v1` struct (identical in both files).  Strings are decoded code
point lists. -/
structure ID3v1 where
  title : List Nat
  artist : List Nat
  album : List Nat
  year : Nat
  comment : List Nat
  track : Option Nat
  genre : Nat
  deriving DecidableEq, Repr

namespace ID3v1

/-- `ID3v1::LEN_BYTES`. -/
def LEN_BYTES : Nat := 128

/-- `ID3v1::create_from_binary` (identical in `lib.rs` and `id3.rs`).
`file_data.len() - 128` underflows (panics) when the buffer is shorter than
128 bytes; each `unsafe_u8_to_str` call panics on invalid UTF-8. -/
def create_from_binary (file_data : List Nat) : Outcome ID3v1 :=
  if file_data.length < LEN_BYTES then .panic
  else
    let start_of_tag := file_data.length - LEN_BYTES
    if listSlice file_data start_of_tag (start_of_tag + 3) = [84, 65, 71] then
      let id3_data := file_data.drop start_of_tag
      match utf8Decode (listSlice id3_data 3 33) with
      | none => .panic
      | some title =>
      match utf8Decode (listSlice id3_data 33 63) with
      | none => .panic
      | some artist =>
      match utf8Decode (listSlice id3_data 63 93) with
      | none => .panic
      | some album =>
      match utf8Decode (listSlice id3_data 93 97) with
      | none => .panic
      | some year_str =>
      match parse_u64 year_str with
      | none => .error .ParseError
      | some year =>
        match id3_data.getD 125 0 with
        | 0 =>
          match id3_data.getD 126 0 with
          | 0 =>
            match utf8Decode (listSlice id3_data 97 127) with
            | none => .panic
            | some comment =>
              .ok ⟨title, artist, album, year, comment, none, id3_data.getD 127 0⟩
          | t =>
            match utf8Decode (listSlice id3_data 97 125) with
            | none => .panic
            | some comment =>
              .ok ⟨title, artist, album, year, comment, some t, id3_data.getD 127 0⟩
        | _ =>
          match utf8Decode (listSlice id3_data 97 127) with
          | none => .panic
          | some comment =>
            .ok ⟨title, artist, album, year, comment, none, id3_data.getD 127 0⟩
    else .error .TagsNotFoundError

end ID3v1

namespace Lib

/-- The `ID3v2` struct of `lib.rs`: header fields only (this revision parses
no frames). -/
structure ID3v2 where
  id3_version : Nat
  id3_revision : Nat
  unsynchronization : Bool
  extended_header : Bool
  experimental_indicator : Bool
  size : Nat
  deriving DecidableEq, Repr

/-- `ID3v2::create_from_binary` from `lib.rs`: checks the `"ID3"` magic in
the first 3 bytes (slicing panics on buffers shorter than 3, and shorter
than 10 once the magic matched), then decodes the 10-byte header. -/
def ID3v2.create_from_binary (file_data : List Nat) : Outcome ID3v2 :=
  if file_data.length < 3 then .panic
  else if listSlice file_data 0 3 = [73, 68, 51] then
    if file_data.length < 10 then .panic
    else
      let header := listSlice file_data 0 10
      let flags := BitArray.create_from_byte (header.getD 5 0) true
      .ok ⟨header.getD 3 0, header.getD 4 0,
        flags.bits.getD 0 false, flags.bits.getD 1 false, flags.bits.getD 2 false,
        calculate_size (listSlice header 6 10)⟩
  else .error .TagsNotFoundError

end Lib

instance : DecidableEq (Except TagError Unit) := fun a b =>
  match a, b with
  | .error x, .error y =>
    if h : x = y then isTrue (by rw [h]) else isFalse (by intro hc; cases hc; exact h rfl)
  | .error _, .ok _ => isFalse (by intro hc; cases hc)
  | .ok _, .error _ => isFalse (by intro hc; cases hc)
  | .ok (), .ok () => isTrue rfl

/-- The `FileTags` struct of `lib.rs`. -/
structure FileTags where
  id3v1 : Option ID3v1
  id3v2 : Option Lib.ID3v2
  deriving DecidableEq, Repr

/-- `FileTags::new`. -/
def FileTags.new : FileTags := ⟨none, none⟩

/-- The second half of `extract_id3`: fold the already-computed `ID3v2`
result into `f_tags`, swallowing `TagsNotFoundError` and propagating any
other error (with `f_tags` as it stands at that point). -/
def apply_id3v2 (r2 : Outcome Lib.ID3v2) (f : FileTags) :
    Outcome (Except TagError Unit × FileTags) :=
  match r2 with
  | .panic => .panic
  | .error .TagsNotFoundError => .ok (.ok (), f)
  | .error e => .ok (.error e, f)
  | .ok x => .ok (.ok (), { f with id3v2 := some x })

/-- `extract_id3` from `lib.rs`.  Both parsers are run eagerly (in source
order, so a panic in either aborts the call); a `TagsNotFoundError` from
either is swallowed, any other error is returned.  The returned pair is the
Rust `Result<(), TagError>` together with the final state of the `&mut
FileTags` argument. -/
def extract_id3 (data : List Nat) (f_tags : FileTags) :
    Outcome (Except TagError Unit × FileTags) :=
  match ID3v1.create_from_binary data with
  | .panic => .panic
  | .error .TagsNotFoundError => apply_id3v2 (Lib.ID3v2.create_from_binary data) f_tags
  | .error e =>
    match Lib.ID3v2.create_from_binary data with
    | .panic => .panic
    | _ => .ok (.error e, f_tags)
  | .ok x =>
    apply_id3v2 (Lib.ID3v2.create_from_binary data) { f_tags with id3v1 := some x }

namespace Id3

/-- The `ID3v2Frame` struct of `id3.rs`. -/
structure ID3v2Frame where
  version : Nat
  id : List Nat
  size : Nat
  flags : List BitArray
  data : List Nat
  deriving DecidableEq, Repr

/-- `ID3v2Frame::decode_text_frame` from `id3.rs`: encodings 0 (ISO-8859-1),
1 (UTF-16) and 2 (UTF-16BE) are stubbed to `ParseError`; 3 decodes UTF-8
(`FromUtf8Error` on invalid bytes); anything else is `ParseError`. -/
def decode_text_frame (text_bytes : List Nat) (encoding : Nat) :
    Except TagError (List Nat) :=
  match encoding with
  | 0 => .error .ParseError
  | 1 => .error .ParseError
  | 2 => .error .ParseError
  | 3 =>
    match utf8Decode text_bytes with
    | some x => .ok x
    | none => .error .FromUtf8Error
  | _ => .error .ParseError

/-- `ID3v2Frame::create_from_bytes` from `id3.rs`: `bytes` is the whole
frame slice (10-byte header plus `size` body bytes).  `id.chars().next().unwrap()`
panics on an empty id; a leading `'T'` (code point 84) reads the encoding id
at `bytes[10]` (out of bounds, hence a panic, when `size = 0`) and decodes
`bytes[11..]`; any other leading character is a `ParseError`. -/
def ID3v2Frame.create_from_bytes (bytes : List Nat) (version : Nat)
    (id : List Nat) (size : Nat) (flags : List BitArray) : Outcome ID3v2Frame :=
  match id with
  | [] => .panic
  | c :: _ =>
    if c = 84 then
      if bytes.length ≤ 10 then .panic
      else
        match decode_text_frame (bytes.drop 11) (bytes.getD 10 0) with
        | .error e => .error e
        | .ok data => .ok ⟨version, id, size, flags, data⟩
    else .error .ParseError

/-- `ID3v2::parse_frame` from `id3.rs`.  For versions 3 and 4 it reads the
4-byte id at `init`, the 4-byte size at `init+4` decoded by `read_be_u32`
for both versions, the (duplicated) flag byte at `init+9`, then hands the
slice `file_data[init..init+10+size]` to `ID3v2Frame::create_from_bytes`;
every slice or index beyond the buffer end panics.  On success the source
returns `(frame, init + size)`; we return the same pair.  The source's
`let size` and `let flags` bindings are inlined (each occurrence written
out), which changes nothing semantically. -/
def parse_frame (file_data : List Nat) (init : Nat) (version : Nat) :
    Outcome (ID3v2Frame × Nat) :=
  match version with
  | 2 => .error .ParseError
  | 3 | 4 =>
    if file_data.length < init + 4 then .panic
    else
      match utf8Decode (listSlice file_data init (init + 4)) with
      | none => .panic
      | some id =>
        if file_data.length < init + 8 then .panic
        else
          if file_data.length ≤ init + 9 then .panic
          else
            if file_data.length <
                init + 10 + read_be_u32 (listSlice file_data (init + 4) (init + 8)) then
              .panic
            else
              match ID3v2Frame.create_from_bytes
                  (listSlice file_data init
                    (init + 10 + read_be_u32 (listSlice file_data (init + 4) (init + 8))))
                  version id
                  (read_be_u32 (listSlice file_data (init + 4) (init + 8)))
                  [BitArray.create_from_byte (file_data.getD (init + 9) 0) true,
                    BitArray.create_from_byte (file_data.getD (init + 9) 0) true] with
              | .panic => .panic
              | .error e => .error e
              | .ok x =>
                .ok (x, init + read_be_u32 (listSlice file_data (init + 4) (init + 8)))
  | _ => .error .ParseError

/-- The `while first_byte < size` frame loop of `ID3v2::create_from_binary`
(`id3.rs`).  On success of `parse_frame` the source sets
`first_byte = x.1 + 1` where `x.1 = init + frame_size`.  The loop is driven
by a fuel parameter for structural recursion: each iteration moves
`first_byte` to `init + frame_size + 1 ≥ first_byte + 1`, so starting the
loop with fuel `tag_size + 1` can never exhaust it (the fuel-out branch is
unreachable). -/
def frames_loop (file_data : List Nat) (tag_size : Nat) (version : Nat) :
    Nat → Nat → Outcome (List ID3v2Frame)
  | fuel, first_byte =>
    if first_byte < tag_size then
      match fuel with
      | 0 => .panic
      | fuel2 + 1 =>
        match parse_frame file_data first_byte version with
        | .panic => .panic
        | .error e => .error e
        | .ok (fr, last) =>
          match frames_loop file_data tag_size version fuel2 (last + 1) with
          | .panic => .panic
          | .error e => .error e
          | .ok frs => .ok (fr :: frs)
    else .ok []

/-- The `ID3v2` struct of `id3.rs`: header fields plus the parsed frames. -/
structure ID3v2 where
  id3_version : Nat
  id3_revision : Nat
  unsynchronization : Bool
  extended_header : Bool
  experimental_indicator : Bool
  size : Nat
  frames : List ID3v2Frame
  deriving DecidableEq, Repr

/-- `ID3v2::create_from_binary` from `id3.rs`: `"ID3"` magic, 10-byte
header, synchsafe total size, then the frame loop starting at offset 10. -/
def ID3v2.create_from_binary (file_data : List Nat) : Outcome ID3v2 :=
  if file_data.length < 3 then .panic
  else if listSlice file_data 0 3 = [73, 68, 51] then
    if file_data.length < 10 then .panic
    else
      let header := listSlice file_data 0 10
      let id3_version := header.getD 3 0
      let flags := BitArray.create_from_byte (header.getD 5 0) true
      let size := calculate_size (listSlice header 6 10)
      match frames_loop file_data size id3_version (size + 1) 10 with
      | .panic => .panic
      | .error e => .error e
      | .ok frames =>
        .ok ⟨id3_version, header.getD 4 0,
          flags.bits.getD 0 false, flags.bits.getD 1 false, flags.bits.getD 2 false,
          size, frames⟩
  else .error .TagsNotFoundError

/-- The sizes of the parsed frames of a successful parse. -/
def frameSizesOf (o : Outcome ID3v2) : Option (List Nat) :=
  match o with
  | .ok t => some (t.frames.map ID3v2Frame.size)
  | _ => none

/-- The decoded text payloads of the parsed frames of a successful parse. -/
def frameDataOf (o : Outcome ID3v2) : Option (List (List Nat)) :=
  match o with
  | .ok t => some (t.frames.map ID3v2Frame.data)
  | _ => none

end Id3

section Buffers

/-- C2 input: `"ID3"`, version 3, declared tag size 11 (so the declared
boundary is offset 21), one frame at offset 10 with id `"TIT2"`, declared
frame size 100, text body of 99 `'A'` bytes; 120 bytes total. -/
def c2overrunBuf : List Nat :=
  [73, 68, 51, 3, 0, 0, 0, 0, 0, 11,
   84, 73, 84, 50, 0, 0, 0, 100, 0, 0, 3] ++ List.replicate 99 65

/-- C2 input: the same header and frame declaration truncated to 31 bytes,
so the declared frame extent `[10..120)` runs past the end of the buffer. -/
def c2truncatedBuf : List Nat :=
  [73, 68, 51, 3, 0, 0, 0, 0, 0, 11,
   84, 73, 84, 50, 0, 0, 0, 100, 0, 0, 3] ++ List.replicate 10 65

/-- C3 input: version 4 header, declared tag size 11, one `"TIT2"` frame
whose 4-byte size field is `[0,0,1,5]`; 281 bytes total. -/
def c3v4Buf : List Nat :=
  [73, 68, 51, 4, 0, 0, 0, 0, 0, 11,
   84, 73, 84, 50, 0, 0, 1, 5, 0, 0, 3] ++ List.replicate 260 65

/-- C3 input: identical to `c3v4Buf` except the major version byte is 3. -/
def c3v3Buf : List Nat :=
  [73, 68, 51, 3, 0, 0, 0, 0, 0, 11,
   84, 73, 84, 50, 0, 0, 1, 5, 0, 0, 3] ++ List.replicate 260 65

/-- C4 input: the 300-byte buffer of the end-to-end spec scenario — `"ID3"`,
version 3, declared tag size 20, one `"TIT2"` frame of declared size 6 whose
body is the UTF-8 encoding id 3 followed by `"Hello"`, zero padding. -/
def c4buf : List Nat :=
  [73, 68, 51, 3, 0, 0, 0, 0, 0, 20,
   84, 73, 84, 50, 0, 0, 0, 6, 0, 0,
   3, 72, 101, 108, 108, 111] ++ List.replicate 274 0

/-- C5 witness input: starts with an `"ID3"` version-3 header (valid for the
`lib.rs` frame-less parser) and ends with a 128-byte `"TAG"` trailer whose
year field is `"2a20"` — not parseable, so the legacy parser yields
`ParseError`. -/
def c5buf : List Nat :=
  [73, 68, 51, 3, 0, 0, 0, 0, 0, 0] ++
    ([84, 65, 71] ++ List.replicate 90 0 ++ [50, 97, 50, 48] ++ List.replicate 31 0)

/-- C6 witness input: a 128-byte `"TAG"` trailer, all string fields zero
bytes, year `"2020"`, byte 125 zero and byte 126 equal to 7 (the
track-number branch). -/
def c6buf : List Nat :=
  [84, 65, 71] ++ List.replicate 90 0 ++ [50, 48, 50, 48] ++
    List.replicate 28 0 ++ [0, 7, 0]

/-- The record `ID3v1::create_from_binary` produces on `c6buf`. -/
def c6rec : ID3v1 :=
  ⟨List.replicate 30 0, List.replicate 30 0, List.replicate 30 0, 2020,
    List.replicate 28 0, some 7, 0⟩

/-- C10 witness input: a 128-byte buffer starting with `"TAG"` whose title
field begins with the byte `0xFF`, which is invalid in UTF-8. -/
def c10buf : List Nat :=
  [84, 65, 71, 255] ++ List.replicate 124 0

end Buffers

/-- `parse_frame` never moves the offset backwards: a successful parse at
`init` returns a second component of at least `init` (the source returns
`init + size`). -/
theorem parse_frame_ok_le {d : List Nat} {init v : Nat} {fr : Id3.ID3v2Frame}
    {last : Nat} (h : Id3.parse_frame d init v = .ok (fr, last)) : init ≤ last := by
  unfold Id3.parse_frame at h
  repeat' split at h
  all_goals first
    | exact Outcome.noConfusion h
    | (injection h with h2; rw [Prod.mk.injEq] at h2; omega)

/-- The fuel driving `Id3.frames_loop` is irrelevant as soon as it covers the
distance from `first_byte` to the declared size: any two sufficient fuels
yield the same result, so seeding the loop with `tag_size + 1` (as
`create_from_binary` does from offset 10) faithfully models the unbounded
`while` loop of the source. -/
theorem frames_loop_fuel_eq (d : List Nat) (ts v : Nat) :
    ∀ fuel1 fuel2 fb, ts ≤ fb + fuel1 → ts ≤ fb + fuel2 →
      Id3.frames_loop d ts v fuel1 fb = Id3.frames_loop d ts v fuel2 fb := by
  intro fuel1
  induction fuel1 with
  | zero =>
    intro fuel2 fb h1 h2
    have hnlt : ¬ fb < ts := by omega
    cases fuel2 with
    | zero => rfl
    | succ m =>
      simp only [Id3.frames_loop]
      rw [if_neg hnlt, if_neg hnlt]
  | succ n ih =>
    intro fuel2 fb h1 h2
    by_cases hlt : fb < ts
    · cases fuel2 with
      | zero => omega
      | succ m =>
        simp only [Id3.frames_loop]
        rw [if_pos hlt, if_pos hlt]
        rcases hp : Id3.parse_frame d fb v with _ | e | pr
        · simp only [hp]
        · simp only [hp]
        · obtain ⟨fr, last⟩ := pr
          have hle : fb ≤ last := parse_frame_ok_le hp
          simp only [hp]
          rw [ih m (last + 1) (by omega) (by omega)]
    · cases fuel2 with
      | zero =>
        simp only [Id3.frames_loop]
        rw [if_neg hlt, if_neg hlt]
      | succ m =>
        simp only [Id3.frames_loop]
        rw [if_neg hlt, if_neg hlt]

/-- Bits of `a` and of `b * 2 ^ n` do not overlap when `a < 2 ^ n`, so their
bitwise or equals their sum. -/
theorem lor_mul_two_pow_eq_add (a b n : Nat) (h : a < 2 ^ n) :
    a ||| b * 2 ^ n = a + b * 2 ^ n := by
  apply Nat.eq_of_testBit_eq
  intro i
  have htb : (b * 2 ^ n).testBit i = (decide (n ≤ i) && b.testBit (i - n)) := by
    rw [← Nat.shiftLeft_eq, Nat.testBit_shiftLeft]
  rw [Nat.testBit_lor, htb]
  rcases Nat.lt_or_ge i n with hi | hi
  · have hni : ¬ n ≤ i := Nat.not_le.mpr hi
    have hb : (decide (n ≤ i) && b.testBit (i - n)) = false := by simp [hni]
    rw [hb, Bool.or_false]
    have hmod : (a + b * 2 ^ n) % 2 ^ n = a := by
      rw [Nat.add_mul_mod_self_right, Nat.mod_eq_of_lt h]
    calc a.testBit i = ((a + b * 2 ^ n) % 2 ^ n).testBit i := by rw [hmod]
      _ = (decide (i < n) && (a + b * 2 ^ n).testBit i) := by
            rw [Nat.testBit_mod_two_pow]
      _ = (a + b * 2 ^ n).testBit i := by simp [hi]
  · have ha : a.testBit i = false :=
      Nat.testBit_lt_two_pow (lt_of_lt_of_le h (Nat.pow_le_pow_right (by norm_num) hi))
    rw [ha, Bool.false_or]
    have hdiv : (a + b * 2 ^ n) / 2 ^ i = b / 2 ^ (i - n) := by
      have hpow : 2 ^ i = 2 ^ n * 2 ^ (i - n) := by
        rw [← pow_add]
        congr 1
        omega
      rw [hpow, ← Nat.div_div_eq_div_mul]
      have hinner : (a + b * 2 ^ n) / 2 ^ n = b := by
        rw [Nat.add_mul_div_right _ _ (Nat.two_pow_pos n), Nat.div_eq_of_lt h,
          Nat.zero_add]
      rw [hinner]
    rw [Nat.testBit_to_div_mod, Nat.testBit_to_div_mod, hdiv]
    simp [hi]

/-- C1: on a buffer shorter than 128 bytes, `ID3v1::create_from_binary`
computes `file_data.len() - 128`, which underflows: the parser panics
instead of returning `TagsNotFoundError` (first conjunct, on a 127-byte
buffer).  On a buffer of at least 128 bytes whose last 128 bytes do not
begin with `"TAG"`, it does return `TagsNotFoundError` (second conjunct). -/
theorem c1_short_buffer_panics :
    ID3v1.create_from_binary (List.replicate 127 0) = .panic ∧
    ID3v1.create_from_binary (List.replicate 128 0) = .error .TagsNotFoundError :=
  ⟨by decide, by decide⟩

/-- C2: the frame iteration of `ID3v2::create_from_binary` (`id3.rs`) does
read past offset `10 + S`.  On `c2overrunBuf` (declared tag size `S = 11`,
boundary offset 21, one frame whose declared size 100 extends to offset 120)
the parse succeeds and returns the 99 text bytes that all live at offsets
21–119, beyond the declared boundary — no `ParseError` (first conjunct).
On `c2truncatedBuf`, where the declared frame size runs past the end of the
31-byte buffer, the slice `file_data[init..init+10+size]` panics instead of
returning `ParseError` (second conjunct). -/
theorem c2_boundary_violations :
    Id3.frameDataOf (Id3.ID3v2.create_from_binary c2overrunBuf) =
      some [List.replicate 99 65] ∧
    Id3.ID3v2.create_from_binary c2truncatedBuf = .panic :=
  ⟨by decide, by decide⟩

/-- C3: `ID3v2::parse_frame` (`id3.rs`) decodes the 4-byte frame size with
`read_be_u32` for version 4 and version 3 alike — there is no branch.  With
size field `[0,0,1,5]` both a version-4 and a version-3 tag produce a frame
of size 261 (the plain big-endian value), while the synchsafe decoding
mandated for version 4 would give 133. -/
theorem c3_frame_size_not_version_dependent :
    Id3.frameSizesOf (Id3.ID3v2.create_from_binary c3v4Buf) = some [261] ∧
    Id3.frameSizesOf (Id3.ID3v2.create_from_binary c3v3Buf) = some [261] ∧
    read_be_u32 [0, 0, 1, 5] = 261 ∧
    calculate_size [0, 0, 1, 5] = 133 :=
  ⟨by decide, by decide, by decide, by decide⟩

/-- C4: on the 300-byte end-to-end buffer (`"ID3"`, version 3, declared size
20, one `"TIT2"` frame of size 6 with UTF-8 text `"Hello"`) the parser
panics instead of returning one decoded frame: after the first frame it sets
`first_byte = (init + size) + 1 = 17` (the source comment says `x.1`
contains the last byte of the parsed frame, but `parse_frame` returns
`init + size`, which skips the 10 header bytes), re-enters the loop at
offset 17, reads `"Hell"` as a frame size of 1214606444 and panics slicing
far past the end of the buffer. -/
theorem c4_end_to_end_panics :
    Id3.ID3v2.create_from_binary c4buf = .panic := by decide

/-- C7 counterexample: `calculate_size` on `[1,5,7,3]` yields
`2097152 + 81920 + 896 + 3 = 2179971`, not the literal `2101011` stated in
the claim. -/
theorem c7_decode_value_counterexample :
    calculate_size [1, 5, 7, 3] = 2179971 ∧ (2179971 : Nat) ≠ 2101011 :=
  ⟨by decide, by decide⟩

/-- C7 (amended): for every 4-byte input, `calculate_size` returns exactly
`(b3 &&& 0x7F) ||| ((b2 &&& 0x7F) <<< 7) ||| ((b1 &&& 0x7F) <<< 14) |||
((b0 &&& 0x7F) <<< 21)`, a 28-bit value; the concrete decode of `[1,5,7,3]`
is `2179971`, not `2101011`. -/
theorem c7_synchsafe_formula (b0 b1 b2 b3 : Nat)
    (h0 : b0 < 256) (h1 : b1 < 256) (h2 : b2 < 256) (h3 : b3 < 256) :
    calculate_size [b0, b1, b2, b3] =
      ((b3 &&& 0x7F) ||| ((b2 &&& 0x7F) <<< 7) ||| ((b1 &&& 0x7F) <<< 14) |||
        ((b0 &&& 0x7F) <<< 21)) ∧
    calculate_size [b0, b1, b2, b3] < 2 ^ 28 := by
  have m3 : b3 &&& 0x7F ≤ 127 := Nat.and_le_right
  have m2 : b2 &&& 0x7F ≤ 127 := Nat.and_le_right
  have m1 : b1 &&& 0x7F ≤ 127 := Nat.and_le_right
  have m0 : b0 &&& 0x7F ≤ 127 := Nat.and_le_right
  simp only [calculate_size, List.getD_cons_succ, List.getD_cons_zero,
    Nat.shiftLeft_eq]
  have p2 : (b2 &&& 0x7F) * 2 ^ 7 ≤ 127 * 2 ^ 7 := Nat.mul_le_mul_right _ m2
  have p1 : (b1 &&& 0x7F) * 2 ^ 14 ≤ 127 * 2 ^ 14 := Nat.mul_le_mul_right _ m1
  have p0 : (b0 &&& 0x7F) * 2 ^ 21 ≤ 127 * 2 ^ 21 := Nat.mul_le_mul_right _ m0
  constructor
  · rw [lor_mul_two_pow_eq_add _ _ 7 (by omega),
      lor_mul_two_pow_eq_add _ _ 14 (by norm_num at p2 ⊢; omega),
      lor_mul_two_pow_eq_add _ _ 21 (by norm_num at p2 p1 ⊢; omega)]
  · norm_num at p2 p1 p0 ⊢
    omega

/-- C7 witness: the amended formula instantiated at the regression-test
input `[1,5,7,3]`, whose decode is `2179971`. -/
theorem c7_synchsafe_formula_witness :
    (1 : Nat) < 256 ∧ (5 : Nat) < 256 ∧ (7 : Nat) < 256 ∧ (3 : Nat) < 256 ∧
    (calculate_size [1, 5, 7, 3] =
      ((3 &&& 0x7F) ||| ((7 &&& 0x7F) <<< 7) ||| ((5 &&& 0x7F) <<< 14) |||
        ((1 &&& 0x7F) <<< 21)) ∧
      calculate_size [1, 5, 7, 3] < 2 ^ 28) ∧
    calculate_size [1, 5, 7, 3] = 2179971 :=
  ⟨by decide, by decide, by decide, by decide,
    c7_synchsafe_formula 1 5 7 3 (by decide) (by decide) (by decide) (by decide),
    by decide⟩

/-- C8 counterexample: `decode_text_frame` with encoding id 0 (ISO-8859-1)
fails with `ParseError` on the two plain ASCII bytes `"Hi"` — it does not
succeed. -/
theorem c8_iso88591_counterexample :
    Id3.decode_text_frame [72, 105] 0 = .error .ParseError := rfl

/-- C8 (amended): for every byte slice, `decode_text_frame` invoked with
encoding id 0 (ISO-8859-1) always fails with `ParseError` — the branch is a
stub. -/
theorem c8_iso88591_always_fails (text_bytes : List Nat) :
    Id3.decode_text_frame text_bytes 0 = .error .ParseError := rfl

/-- C9: decoding a byte most-significant-bit first (`big_endian = true`) and
reversing the 8 booleans gives exactly the least-significant-bit-first
decoding. -/
theorem c9_bit_order_reversal (b : Nat) (hb : b < 256) :
    (BitArray.create_from_byte b true).bits.reverse =
      (BitArray.create_from_byte b false).bits := by
  revert hb
  revert b
  decide

/-- C9 witness: the reversal law at byte 5. -/
theorem c9_bit_order_reversal_witness :
    (5 : Nat) < 256 ∧
    (BitArray.create_from_byte 5 true).bits.reverse =
      (BitArray.create_from_byte 5 false).bits :=
  ⟨by decide, c9_bit_order_reversal 5 (by decide)⟩

/-- A typed error from `ID3v1::create_from_binary` implies the buffer held
at least 128 bytes (shorter buffers panic before any error can be built). -/
theorem id3v1_error_length {d : List Nat} {e : TagError}
    (h : ID3v1.create_from_binary d = .error e) : 128 ≤ d.length := by
  by_contra hlt
  rw [Nat.not_le] at hlt
  simp only [ID3v1.create_from_binary, ID3v1.LEN_BYTES] at h
  rw [if_pos hlt] at h
  exact Outcome.noConfusion h

/-- The `lib.rs` revision of `ID3v2::create_from_binary` can only fail with
`TagsNotFoundError`: it parses no frames, so no other error is produced. -/
theorem lib_id3v2_error_eq {d : List Nat} {e : TagError}
    (h : Lib.ID3v2.create_from_binary d = .error e) : e = .TagsNotFoundError := by
  unfold Lib.ID3v2.create_from_binary at h
  by_cases h3 : d.length < 3
  · rw [if_pos h3] at h
    exact Outcome.noConfusion h
  · rw [if_neg h3] at h
    by_cases hm : listSlice d 0 3 = [73, 68, 51]
    · rw [if_pos hm] at h
      by_cases h10 : d.length < 10
      · rw [if_pos h10] at h
        exact Outcome.noConfusion h
      · rw [if_neg h10] at h
        exact Outcome.noConfusion h
    · rw [if_neg hm] at h
      injection h with h2
      exact h2.symm

/-- On a buffer of at least 128 bytes the `lib.rs` `ID3v2::create_from_binary`
cannot panic: both header slices are in bounds. -/
theorem lib_id3v2_no_panic {d : List Nat} (h : 128 ≤ d.length) :
    Lib.ID3v2.create_from_binary d ≠ .panic := by
  unfold Lib.ID3v2.create_from_binary
  rw [if_neg (by omega)]
  by_cases hm : listSlice d 0 3 = [73, 68, 51]
  · rw [if_pos hm, if_neg (by omega)]
    exact fun hc => Outcome.noConfusion hc
  · rw [if_neg hm]
    exact fun hc => Outcome.noConfusion hc

/-- C5: a non-`TagsNotFoundError` failure from either parser makes
`extract_id3` fail as a whole: it returns exactly that error and the
`FileTags` record is left unchanged — no partial result, even when the
other parser succeeded. -/
theorem c5_facade_propagates_errors (data : List Nat) (f : FileTags) (e : TagError)
    (herr : ID3v1.create_from_binary data = .error e ∨
      Lib.ID3v2.create_from_binary data = .error e)
    (hnf : e ≠ .TagsNotFoundError) :
    extract_id3 data f = .ok (.error e, f) := by
  rcases herr with h1 | h2
  · have hlen := id3v1_error_length h1
    have hnp := lib_id3v2_no_panic hlen
    unfold extract_id3
    rw [h1]
    cases e with
    | TagsNotFoundError => exact absurd rfl hnf
    | ParseError =>
      rcases hv2 : Lib.ID3v2.create_from_binary data with _ | e2 | x
      · exact absurd hv2 hnp
      · rfl
      · rfl
    | HeaderError =>
      rcases hv2 : Lib.ID3v2.create_from_binary data with _ | e2 | x
      · exact absurd hv2 hnp
      · rfl
      · rfl
    | IoError =>
      rcases hv2 : Lib.ID3v2.create_from_binary data with _ | e2 | x
      · exact absurd hv2 hnp
      · rfl
      · rfl
    | Utf8Error =>
      rcases hv2 : Lib.ID3v2.create_from_binary data with _ | e2 | x
      · exact absurd hv2 hnp
      · rfl
      · rfl
    | FromUtf8Error =>
      rcases hv2 : Lib.ID3v2.create_from_binary data with _ | e2 | x
      · exact absurd hv2 hnp
      · rfl
      · rfl
  · exact absurd (lib_id3v2_error_eq h2) hnf

/-- C5 witness: `c5buf` starts with a valid `"ID3"` header (the frame-less
`lib.rs` parser succeeds on it) but its `"TAG"` trailer has the unparseable
year `"2a20"`, so the legacy parser fails with `ParseError`; the facade
returns that error and the `FileTags` record stays empty. -/
theorem c5_facade_propagates_errors_witness :
    (ID3v1.create_from_binary c5buf = .error .ParseError ∨
      Lib.ID3v2.create_from_binary c5buf = .error .ParseError) ∧
    TagError.ParseError ≠ TagError.TagsNotFoundError ∧
    extract_id3 c5buf FileTags.new = .ok (.error .ParseError, FileTags.new) :=
  ⟨Or.inl (by decide), by decide,
    c5_facade_propagates_errors c5buf FileTags.new .ParseError
      (Or.inl (by decide)) (by decide)⟩

/-- C6: for every 128-byte legacy tag region beginning with `"TAG"` and with
a parseable year, the parsed record obeys the track/comment disambiguation
rule: byte 125 zero and byte 126 zero gives no track number and the 30-byte
comment at offsets 97–126; byte 125 zero and byte 126 non-zero gives that
byte as the track number and the 28-byte comment at offsets 97–124; byte 125
non-zero gives no track number and the 30-byte comment.  (Comments are
compared through `utf8Decode`, since the record stores decoded strings.) -/
theorem c6_track_comment_disambiguation (d ys : List Nat) (y : Nat) (r : ID3v1)
    (hlen : d.length = 128)
    (hmark : listSlice d 0 3 = [84, 65, 71])
    (hy : utf8Decode (listSlice d 93 97) = some ys)
    (hp : parse_u64 ys = some y)
    (hok : ID3v1.create_from_binary d = .ok r) :
    (d.getD 125 0 = 0 → d.getD 126 0 = 0 →
      r.track = none ∧ utf8Decode (listSlice d 97 127) = some r.comment) ∧
    (d.getD 125 0 = 0 → d.getD 126 0 ≠ 0 →
      r.track = some (d.getD 126 0) ∧
        utf8Decode (listSlice d 97 125) = some r.comment) ∧
    (d.getD 125 0 ≠ 0 →
      r.track = none ∧ utf8Decode (listSlice d 97 127) = some r.comment) := by
  simp only [ID3v1.create_from_binary, ID3v1.LEN_BYTES, hlen, Nat.lt_irrefl,
    if_false, Nat.sub_self, List.drop_zero, Nat.zero_add, hmark, if_true] at hok
  rcases ht : utf8Decode (listSlice d 3 33) with _ | title
  · simp only [ht] at hok
    exact Outcome.noConfusion hok
  simp only [ht] at hok
  rcases ha : utf8Decode (listSlice d 33 63) with _ | artist
  · simp only [ha] at hok
    exact Outcome.noConfusion hok
  simp only [ha] at hok
  rcases hb : utf8Decode (listSlice d 63 93) with _ | album
  · simp only [hb] at hok
    exact Outcome.noConfusion hok
  simp only [hb] at hok
  rcases hys : utf8Decode (listSlice d 93 97) with _ | ystr
  · simp only [hys] at hok
    exact Outcome.noConfusion hok
  simp only [hys] at hok
  rcases hpy : parse_u64 ystr with _ | yv
  · simp only [hpy] at hok
    exact Outcome.noConfusion hok
  simp only [hpy] at hok
  rcases h125 : d.getD 125 0 with _ | n125
  · simp only [h125] at hok
    rcases h126 : d.getD 126 0 with _ | n126
    · simp only [h126] at hok
      rcases hc : utf8Decode (listSlice d 97 127) with _ | comment
      · simp only [hc] at hok
        exact Outcome.noConfusion hok
      simp only [hc] at hok
      injection hok with hr
      subst hr
      refine ⟨fun _ _ => ⟨rfl, rfl⟩, fun _ hne => absurd rfl hne, fun hne => absurd rfl hne⟩
    · simp only [h126] at hok
      rcases hc : utf8Decode (listSlice d 97 125) with _ | comment
      · simp only [hc] at hok
        exact Outcome.noConfusion hok
      simp only [hc] at hok
      injection hok with hr
      subst hr
      refine ⟨fun _ h0 => absurd h0 (by omega), fun _ _ => ⟨rfl, rfl⟩,
        fun hne => absurd rfl hne⟩
  · simp only [h125] at hok
    rcases hc : utf8Decode (listSlice d 97 127) with _ | comment
    · simp only [hc] at hok
      exact Outcome.noConfusion hok
    simp only [hc] at hok
    injection hok with hr
    subst hr
    refine ⟨fun h0 _ => absurd h0 (by omega), fun h0 _ => absurd h0 (by omega),
      fun _ => ⟨rfl, rfl⟩⟩

/-- C6 witness: the track-number branch on a concrete trailer — `"TAG"`,
zero-filled string fields, year `"2020"`, byte 125 zero, byte 126 equal
to 7: the parsed record carries `track = some 7` and the 28-byte comment. -/
theorem c6_track_comment_disambiguation_witness :
    c6buf.length = 128 ∧
    listSlice c6buf 0 3 = [84, 65, 71] ∧
    utf8Decode (listSlice c6buf 93 97) = some [50, 48, 50, 48] ∧
    parse_u64 [50, 48, 50, 48] = some 2020 ∧
    ID3v1.create_from_binary c6buf = .ok c6rec ∧
    (c6rec.track = some (c6buf.getD 126 0) ∧
      utf8Decode (listSlice c6buf 97 125) = some c6rec.comment) :=
  ⟨by decide, by decide, by decide, by decide, by decide,
    (c6_track_comment_disambiguation c6buf [50, 48, 50, 48] 2020 c6rec
      (by decide) (by decide) (by decide) (by decide) (by decide)).2.1
      (by decide) (by decide)⟩

/-- C10: whenever the last 128 bytes of the buffer begin with `"TAG"` but
the 30-byte title field is not valid UTF-8, `ID3v1::create_from_binary`
panics (the `unwrap` inside `unsafe_u8_to_str`) instead of returning a tag
or a typed `TagError`. -/
theorem c10_invalid_utf8_panics (d : List Nat)
    (hlen : 128 ≤ d.length)
    (hmark : listSlice d (d.length - 128) (d.length - 128 + 3) = [84, 65, 71])
    (hbad : utf8Decode (listSlice (d.drop (d.length - 128)) 3 33) = none) :
    ID3v1.create_from_binary d = .panic := by
  simp only [ID3v1.create_from_binary, ID3v1.LEN_BYTES]
  rw [if_neg (by omega), if_pos hmark, hbad]

/-- C10 witness: a 128-byte buffer starting with `"TAG"` whose title field
begins with the invalid UTF-8 byte `0xFF` makes the parser panic. -/
theorem c10_invalid_utf8_panics_witness :
    128 ≤ c10buf.length ∧
    listSlice c10buf (c10buf.length - 128) (c10buf.length - 128 + 3) = [84, 65, 71] ∧
    utf8Decode (listSlice (c10buf.drop (c10buf.length - 128)) 3 33) = none ∧
    ID3v1.create_from_binary c10buf = .panic :=
  ⟨by decide, by decide, by decide,
    c10_invalid_utf8_panics c10buf (by decide) (by decide) (by decide)⟩

end RAudioTagger
